import Mathlib

/-!
Verification development for the pd-prototype measurement-quality gate.

The embedding covers the two source files of the repository:
  * `server/quality_gates.py` — the metric extractor
    (`calc_blur_laplacian_var`, `calc_hist_clip_pct`) and the single-frame
    gate evaluator (`evaluate_basic_gates`);
  * `server/main.py` — the `measure` endpoint: token cooldown, per-frame
    sanity filter, median-based burst scoring and message banding.

Numbers are modelled as rationals (`ℚ`); pixels are 8-bit (`Fin 256`).
Image decoding and resizing (PIL plumbing in `main.py`) stay outside the
embedding: a decoded frame is a pixel grid, and the burst scorer is stated
over the per-frame metric pairs the extractor produces, exactly as the
loop in `measure` consumes them.
-/

set_option maxRecDepth 8000

namespace PD

/-- An 8-bit pixel intensity, as stored in the uint8 numpy arrays. -/
abbrev Pixel := Fin 256

/-- A single-channel (grayscale) image: rows of pixel intensities. -/
abbrev GrayImg := List (List Pixel)

/-- A 3-channel pixel in OpenCV channel order `(b, g, r)`. -/
abbrev BgrPixel := Pixel × Pixel × Pixel

/-- A decoded image buffer as `cv2` receives it: either a single-channel
grid or a 3-channel BGR grid. -/
inductive ImgBuf where
  | gray1 (g : GrayImg)
  | bgr3 (g : List (List BgrPixel))

/-- OpenCV's fixed-point BT.601 luminance formula used by
`cv2.cvtColor(..., COLOR_BGR2GRAY)` on 8-bit input:
`(4899*R + 9617*G + 1868*B + 2^13) >> 14`. -/
def luma (p : BgrPixel) : Pixel :=
  ⟨(4899 * p.2.2.val + 9617 * p.2.1.val + 1868 * p.1.val + 8192) / 16384,
   Nat.div_lt_of_lt_mul (by omega)⟩

/-- `cv2.cvtColor(bgr, cv2.COLOR_BGR2GRAY)`: converts a 3-channel buffer to
grayscale; on a single-channel input `cvtColor` raises
(`Invalid number of channels in input image`), modelled as `none`. -/
def cvtColorBGR2GRAY : ImgBuf → Option GrayImg
  | .gray1 _ => none
  | .bgr3 g => some (g.map (fun row => row.map luma))

/-- `cv2.borderInterpolate` with `BORDER_REFLECT_101` (the default border of
`cv2.Laplacian`) for the one-pixel reach of the 3×3 Laplacian kernel. -/
def reflect101 (len : ℕ) (i : ℤ) : ℤ :=
  if len ≤ 1 then 0
  else if i < 0 then -i
  else if (len : ℤ) ≤ i then 2 * ((len : ℤ) - 1) - i
  else i

/-- Pixel read with `BORDER_REFLECT_101` handling on both axes. -/
def grayAt (g : GrayImg) (i j : ℤ) : ℤ :=
  let r := (reflect101 g.length i).toNat
  let row := g.getD r []
  let c := (reflect101 row.length j).toNat
  ((row.getD c ⟨0, by omega⟩ : Pixel) : ℤ)

/-- `cv2.Laplacian(gray, cv2.CV_64F)` with the default aperture: convolution
with the kernel `[[0,1,0],[1,-4,1],[0,1,0]]` under `BORDER_REFLECT_101`. -/
def laplacian (g : GrayImg) : List (List ℤ) :=
  (List.range g.length).map (fun i =>
    (List.range (g.getD i []).length).map (fun j =>
      grayAt g ((i : ℤ) - 1) j + grayAt g ((i : ℤ) + 1) j +
      grayAt g i ((j : ℤ) - 1) + grayAt g i ((j : ℤ) + 1) -
      4 * grayAt g i j))

/-- `numpy` mean of a list of values (0 on the empty list, via `x / 0 = 0`). -/
def npMean (xs : List ℚ) : ℚ := xs.sum / xs.length

/-- `numpy .var()`: population variance (mean of squared deviations). -/
def npVar (xs : List ℚ) : ℚ :=
  (xs.map (fun x => (x - npMean xs) ^ 2)).sum / xs.length

/-- Variance of the Laplacian response of a grayscale grid. -/
def blurOfGray (g : GrayImg) : ℚ :=
  npVar (((laplacian g).flatten).map (fun z => (z : ℚ)))

/-- `calc_blur_laplacian_var(bgr)`: grayscale conversion, Laplacian filter,
variance of the response.  `none` when `cvtColor` raises. -/
def calc_blur_laplacian_var (img : ImgBuf) : Option ℚ :=
  (cvtColorBGR2GRAY img).map blurOfGray

/-- One bin of the 256-bin intensity histogram built by `cv2.calcHist`. -/
def hist (g : GrayImg) (i : ℕ) : ℕ :=
  ((g.flatten).map (fun p => p.val)).count i

/-- `hist.sum()`: total of all 256 histogram bins. -/
def histTotalRaw (g : GrayImg) : ℕ := ∑ i ∈ Finset.range 256, hist g i

/-- The clip percentage of a grayscale grid: share of pixels in the two
extreme bins, with the zero-total histogram guarded as `total = 1.0`. -/
def clipOfGray (g : GrayImg) : ℚ :=
  let total : ℚ := if 0 < histTotalRaw g then (histTotalRaw g : ℚ) else 1
  ((hist g 0 : ℚ) + (hist g 255 : ℚ)) / total * 100

/-- `calc_hist_clip_pct(bgr)`: grayscale conversion, 256-bin histogram,
percentage of pixels at intensity 0 or 255.  `none` when `cvtColor`
raises. -/
def calc_hist_clip_pct (img : ImgBuf) : Option ℚ :=
  (cvtColorBGR2GRAY img).map clipOfGray

/-- The result quadruple of `evaluate_basic_gates`:
`(ready, failing_gates, guidance, metrics)`. -/
structure GateVerdict where
  ready : Bool
  failing : List String
  guidance : String
  blur_laplacian_var : ℚ
  lighting_clip_pct : ℚ
deriving DecidableEq

/-- The threshold logic of `evaluate_basic_gates` on an already-computed
metrics pair: sharpness gate (`blur < 80.0`), then lighting gate
(`clip >= 8.0`), each appending its gate name and overwriting the guidance;
`ready` iff no gate failed, in which case the guidance is overwritten with
the capturing message. -/
def gatesOnMetrics (blur clip : ℚ) : GateVerdict :=
  let failing0 : List String := []
  let guidance0 := "Hold still… capturing soon"
  let failing1 := if blur < 80 then failing0 ++ ["sharpness"] else failing0
  let guidance1 := if blur < 80 then "Hold still—image is a bit blurry" else guidance0
  let failing2 := if 8 ≤ clip then failing1 ++ ["lighting"] else failing1
  let guidance2 :=
    if 8 ≤ clip then "Face a light source (avoid a bright window behind you)" else guidance1
  let ready := decide (failing2.length = 0)
  let guidance3 := if ready then "Hold still… capturing" else guidance2
  { ready := ready, failing := failing2, guidance := guidance3,
    blur_laplacian_var := blur, lighting_clip_pct := clip }

/-- `evaluate_basic_gates(bgr)`: compute both metrics of the frame, then
apply the fixed thresholds. -/
def evaluate_basic_gates (img : ImgBuf) : Option GateVerdict := do
  let blur ← calc_blur_laplacian_var img
  let clip ← calc_hist_clip_pct img
  pure (gatesOnMetrics blur clip)

/-! ### `server/main.py` — the `measure` endpoint -/

/-- The process-wide mutable state of `main.py`: the `USAGE_COUNTER`
dictionary and the `RECENT_TOKENS` map from token to last-used timestamp
(an association list whose most recent binding shadows older ones, matching
dict lookup). -/
structure ServerState where
  measure_calls : ℕ
  recent_tokens : List (String × ℚ)
deriving DecidableEq

/-- `TOKEN_COOLDOWN_SEC = 2.5`. -/
def TOKEN_COOLDOWN_SEC : ℚ := 5 / 2

/-- The `MeasureResponse` model (diagnostics dict split into its two
lists `"blur"` and `"clip_pct"`). -/
structure MeasureResponse where
  ok : Bool
  distance_pd_mm : Option ℚ
  near_pd_mm : Option ℚ
  score : ℚ
  frames_used : ℕ
  diag_blur : List ℚ
  diag_clip : List ℚ
  message : String
deriving DecidableEq

/-- The cooldown-rejection response returned when a token repeats too
quickly. -/
def rapidRepeatResponse : MeasureResponse :=
  { ok := false, distance_pd_mm := none, near_pd_mm := none, score := 0,
    frames_used := 0, diag_blur := [], diag_clip := [],
    message := "Too-rapid repeat; please hold still briefly." }

/-- Whether a call with this token at this time is rejected by the cooldown
check (`now - RECENT_TOKENS.get(token, 0.0) < TOKEN_COOLDOWN_SEC`); a call
without a token skips the check. -/
def cooldownHit (server_token : Option String) (now : ℚ) (st : ServerState) : Bool :=
  match server_token with
  | none => false
  | some tok => decide (now - ((st.recent_tokens.lookup tok).getD 0) < TOKEN_COOLDOWN_SEC)

/-- The per-frame sanity filter of the burst loop: a frame is kept unless
`b < 5.0 or c > 50.0` (`continue`). -/
def keepFrame (m : ℚ × ℚ) : Bool := !(decide (m.1 < 5) || decide (m.2 > 50))

/-- The metric pairs that survive the sanity filter, in submission order. -/
def survivors (frames : List (ℚ × ℚ)) : List (ℚ × ℚ) := frames.filter keepFrame

/-- `statistics.median`: sort, take the middle element (odd length) or the
mean of the two middle elements (even length). -/
def median (xs : List ℚ) : ℚ :=
  let s := xs.mergeSort (fun a b => decide (a ≤ b))
  let n := s.length
  if n % 2 = 1 then s.getD (n / 2) 0
  else (s.getD (n / 2 - 1) 0 + s.getD (n / 2) 0) / 2

/-- `score_component_blur`: 0 at 40 → 1 at 160. -/
def score_component_blur (b : ℚ) : ℚ :=
  if 160 ≤ b then 1
  else if b ≤ 40 then 0
  else (b - 40) / (160 - 40)

/-- `score_component_clip`: 1 at 4% → 0 at 16%. -/
def score_component_clip (c : ℚ) : ℚ :=
  if c ≤ 4 then 1
  else if 16 ≤ c then 0
  else 1 - (c - 4) / (16 - 4)

/-- Python's `round` ties-to-even on an exact rational. -/
def roundHalfEven (x : ℚ) : ℤ :=
  let f := x.floor
  let frac := x - f
  if frac < 1 / 2 then f
  else if 1 / 2 < frac then f + 1
  else if f % 2 = 0 then f else f + 1

/-- `round(x, 3)`. -/
def pyRound3 (x : ℚ) : ℚ := (roundHalfEven (x * 1000) : ℚ) / 1000

/-- The score → message banding of `measure`. -/
def bandMessage (score : ℚ) : String :=
  if 3 / 4 ≤ score then "OK"
  else if 11 / 20 ≤ score then "Borderline — consider retaking"
  else "Low quality — retake"

/-- The burst-processing part of `measure`, after the cooldown check: sanity
filter, short-circuit below 3 survivors, otherwise median metrics through
the two scoring curves, weighted combination rounded to 3 digits, banded
message.  A frame is represented by the metric pair `(b, c)` that
`calc_blur_laplacian_var` / `calc_hist_clip_pct` give it. -/
def measureBody (frames : List (ℚ × ℚ)) : MeasureResponse :=
  let surv := survivors frames
  let blur_vals := surv.map Prod.fst
  let clip_vals := surv.map Prod.snd
  let frames_used := blur_vals.length
  if frames_used < 3 then
    { ok := false, distance_pd_mm := none, near_pd_mm := none, score := 0,
      frames_used := frames_used, diag_blur := blur_vals, diag_clip := clip_vals,
      message := "Low-quality burst — retake" }
  else
    let med_blur := median blur_vals
    let med_clip := median clip_vals
    let s_blur := score_component_blur med_blur
    let s_clip := score_component_clip med_clip
    let score := pyRound3 (7 / 10 * s_blur + 3 / 10 * s_clip)
    { ok := true, distance_pd_mm := none, near_pd_mm := none, score := score,
      frames_used := frames_used, diag_blur := blur_vals, diag_clip := clip_vals,
      message := bandMessage score }

/-- The `measure` endpoint: bump the usage counter; if a token is supplied,
reject when it was last used less than `TOKEN_COOLDOWN_SEC` ago (before any
frame is touched) and otherwise record the new timestamp; then run the
burst scoring.  Returns the response together with the mutated process
state. -/
def measure (server_token : Option String) (frames : List (ℚ × ℚ)) (now : ℚ)
    (st : ServerState) : MeasureResponse × ServerState :=
  let st1 : ServerState := { st with measure_calls := st.measure_calls + 1 }
  match server_token with
  | some tok =>
    let last := (st1.recent_tokens.lookup tok).getD 0
    if now - last < TOKEN_COOLDOWN_SEC then
      (rapidRepeatResponse, st1)
    else
      let st2 : ServerState := { st1 with recent_tokens := (tok, now) :: st1.recent_tokens }
      (measureBody frames, st2)
  | none => (measureBody frames, st1)

/-! ### Spec-side definitions (for refinement comparison) -/

/-- The sharpness scoring curve as the spec words it: 0.0 at ≤ 40.0,
1.0 at ≥ 160.0, linear interpolation between. -/
def specBlurCurve (b : ℚ) : ℚ :=
  if b ≤ 40 then 0
  else if 160 ≤ b then 1
  else (b - 40) / (160 - 40)

/-- The inverted clip scoring curve as the spec words it: 1.0 at ≤ 4.0,
0.0 at ≥ 16.0, linear interpolation between (lower clipping is better). -/
def specClipCurve (c : ℚ) : ℚ :=
  if c ≤ 4 then 1
  else if 16 ≤ c then 0
  else (16 - c) / (16 - 4)

/-! ### Helper lemmas -/

/-- A call that is not rejected by the cooldown check returns the result of
the burst-processing body. -/
lemma measure_fst_of_not_cooldown (tok : Option String) (frames : List (ℚ × ℚ))
    (now : ℚ) (st : ServerState) (h : cooldownHit tok now st = false) :
    (measure tok frames now st).1 = measureBody frames := by
  cases tok with
  | none => rfl
  | some t =>
    simp only [cooldownHit, decide_eq_false_iff_not, not_lt] at h
    simp only [measure, if_neg (not_lt.mpr h)]

/-- A call that is rejected by the cooldown check returns the
rapid-repeat response. -/
lemma measure_fst_of_cooldown (tok : Option String) (frames : List (ℚ × ℚ))
    (now : ℚ) (st : ServerState) (h : cooldownHit tok now st = true) :
    (measure tok frames now st).1 = rapidRepeatResponse := by
  cases tok with
  | none => simp [cooldownHit] at h
  | some t =>
    simp only [cooldownHit, decide_eq_true_eq] at h
    simp only [measure, if_pos h]

/-- The sharpness component of `measure` agrees with the curve as the spec
words it. -/
lemma score_component_blur_eq_spec (b : ℚ) :
    score_component_blur b = specBlurCurve b := by
  unfold score_component_blur specBlurCurve
  split_ifs <;> first | rfl | linarith

/-- The clip component of `measure` agrees with the inverted curve as the
spec words it. -/
lemma score_component_clip_eq_spec (c : ℚ) :
    score_component_clip c = specClipCurve c := by
  unfold score_component_clip specClipCurve
  split_ifs <;> first | rfl | linarith

/-- The population variance is nonnegative. -/
lemma npVar_nonneg (xs : List ℚ) : 0 ≤ npVar xs := by
  unfold npVar
  apply div_nonneg
  · apply List.sum_nonneg
    intro x hx
    simp only [List.mem_map] at hx
    obtain ⟨y, _, rfl⟩ := hx
    positivity
  · exact Nat.cast_nonneg _

/-- The two extreme histogram bins together hold at most the histogram
total. -/
lemma extreme_le_total (g : GrayImg) : hist g 0 + hist g 255 ≤ histTotalRaw g := by
  unfold histTotalRaw
  have hpair : hist g 0 + hist g 255 = ∑ i ∈ ({0, 255} : Finset ℕ), hist g i :=
    (Finset.sum_pair (by decide)).symm
  rw [hpair]
  exact Finset.sum_le_sum_of_subset (by decide)

/-- When the histogram total is zero, every bin is zero. -/
lemma hist_eq_zero_of_total_eq_zero (g : GrayImg) (h : histTotalRaw g = 0) (i : ℕ)
    (hi : i ∈ Finset.range 256) : hist g i = 0 := by
  unfold histTotalRaw at h
  exact (Finset.sum_eq_zero_iff.mp h) i hi

/-- The clip percentage of any grayscale grid lies in [0, 100]. -/
lemma clipOfGray_range (g : GrayImg) : 0 ≤ clipOfGray g ∧ clipOfGray g ≤ 100 := by
  have hle := extreme_le_total g
  unfold clipOfGray
  generalize hist g 0 = a at hle ⊢
  generalize hist g 255 = b at hle ⊢
  generalize histTotalRaw g = T at hle ⊢
  by_cases hT : 0 < T
  · rw [if_pos hT]
    have hTpos : (0 : ℚ) < T := by exact_mod_cast hT
    have hab : (0 : ℚ) ≤ (a : ℚ) + b := by positivity
    have habT : (a : ℚ) + b ≤ (T : ℚ) := by exact_mod_cast hle
    have hdiv : ((a : ℚ) + b) / T ≤ 1 := (div_le_one hTpos).mpr habT
    have hdiv0 : 0 ≤ ((a : ℚ) + b) / T := div_nonneg hab hTpos.le
    constructor
    · linarith
    · linarith
  · rw [if_neg hT]
    have ha : a = 0 := by omega
    have hb : b = 0 := by omega
    subst ha
    subst hb
    norm_num

/-- The diagnostics and survivor-count fields of the burst-processing body,
on both of its branches. -/
lemma measureBody_fields (frames : List (ℚ × ℚ)) :
    (measureBody frames).diag_blur = (survivors frames).map Prod.fst ∧
    (measureBody frames).diag_clip = (survivors frames).map Prod.snd ∧
    (measureBody frames).frames_used = (survivors frames).length := by
  simp only [measureBody]
  split_ifs <;> simp [List.length_map]

/-! ### Claims -/

/-- C1: gate evaluation returns `ready = true` iff sharpness ≥ 80.0 and
clip < 8.0; sharpness < 80.0 puts `"sharpness"` in the failing list,
clip ≥ 8.0 puts `"lighting"` there, and no other gate name ever appears. -/
theorem C1_gate_thresholds (blur clip : ℚ) :
    ((gatesOnMetrics blur clip).ready = true ↔ 80 ≤ blur ∧ clip < 8) ∧
    (blur < 80 → "sharpness" ∈ (gatesOnMetrics blur clip).failing) ∧
    (8 ≤ clip → "lighting" ∈ (gatesOnMetrics blur clip).failing) ∧
    (∀ g ∈ (gatesOnMetrics blur clip).failing, g = "sharpness" ∨ g = "lighting") := by
  rcases lt_or_le blur 80 with hb | hb <;> rcases lt_or_le clip 8 with hc | hc
  · simp [gatesOnMetrics, hb, not_le.mpr hb, not_le.mpr hc, hc]
  · simp [gatesOnMetrics, hb, not_le.mpr hb, hc, not_lt.mpr hc]
  · simp [gatesOnMetrics, not_lt.mpr hb, hb, not_le.mpr hc, hc]
  · simp [gatesOnMetrics, not_lt.mpr hb, hb, hc, not_lt.mpr hc]

/-- C1 witness: at sharpness 70 and clip 10 both gate names appear. -/
theorem C1_gate_thresholds_witness :
    "sharpness" ∈ (gatesOnMetrics 70 10).failing ∧
    "lighting" ∈ (gatesOnMetrics 70 10).failing :=
  ⟨(C1_gate_thresholds 70 10).2.1 (by norm_num),
   (C1_gate_thresholds 70 10).2.2.1 (by norm_num)⟩

/-- C2: the surfaced guidance is the lighting hint when both gates fail
(lighting overwrites the sharpness hint), the capturing message when
neither fails, and the failing gate's own hint when exactly one fails. -/
theorem C2_guidance_precedence (blur clip : ℚ) :
    (blur < 80 → 8 ≤ clip →
      (gatesOnMetrics blur clip).guidance
        = "Face a light source (avoid a bright window behind you)") ∧
    (80 ≤ blur → clip < 8 →
      (gatesOnMetrics blur clip).guidance = "Hold still… capturing") ∧
    (blur < 80 → clip < 8 →
      (gatesOnMetrics blur clip).guidance = "Hold still—image is a bit blurry") ∧
    (80 ≤ blur → 8 ≤ clip →
      (gatesOnMetrics blur clip).guidance
        = "Face a light source (avoid a bright window behind you)") := by
  rcases lt_or_le blur 80 with hb | hb <;> rcases lt_or_le clip 8 with hc | hc
  · simp [gatesOnMetrics, hb, not_le.mpr hb, not_le.mpr hc, hc]
  · simp [gatesOnMetrics, hb, not_le.mpr hb, hc, not_lt.mpr hc]
  · simp [gatesOnMetrics, not_lt.mpr hb, hb, not_le.mpr hc, hc]
  · simp [gatesOnMetrics, not_lt.mpr hb, hb, hc, not_lt.mpr hc]

/-- C2 witness: both gates failing at (70, 10) surfaces the lighting hint;
neither failing at (90, 2) surfaces the capturing message. -/
theorem C2_guidance_precedence_witness :
    (gatesOnMetrics 70 10).guidance
      = "Face a light source (avoid a bright window behind you)" ∧
    (gatesOnMetrics 90 2).guidance = "Hold still… capturing" :=
  ⟨(C2_guidance_precedence 70 10).1 (by norm_num) (by norm_num),
   (C2_guidance_precedence 90 2).2.1 (by norm_num) (by norm_num)⟩

/-- C3: a frame is dropped by the sanity filter exactly when its sharpness
is < 5.0 or its clip percentage is > 50.0 (sharpness exactly 5.0 or clip
exactly 50.0 survives), and a burst with fewer than 3 survivors
short-circuits to score 0.0, `ok = false`, the low-quality-burst message,
`frames_used` = number of survivors, and diagnostics holding exactly the
survivors' values. -/
theorem C3_sanity_filter_short_circuit (tok : Option String) (frames : List (ℚ × ℚ))
    (now : ℚ) (st : ServerState) (hcd : cooldownHit tok now st = false)
    (hfew : (survivors frames).length < 3) :
    (∀ b c : ℚ, keepFrame (b, c) = false ↔ (b < 5 ∨ 50 < c)) ∧
    (measure tok frames now st).1 =
      { ok := false, distance_pd_mm := none, near_pd_mm := none, score := 0,
        frames_used := (survivors frames).length,
        diag_blur := (survivors frames).map Prod.fst,
        diag_clip := (survivors frames).map Prod.snd,
        message := "Low-quality burst — retake" } := by
  constructor
  · intro b c
    constructor
    · intro h
      by_contra hn
      push_neg at hn
      simp [keepFrame, not_lt.mpr hn.1, not_lt.mpr hn.2] at h
    · rintro (h | h) <;> simp [keepFrame, h]
  · rw [measure_fst_of_not_cooldown tok frames now st hcd]
    simp [measureBody, List.length_map, hfew]

/-- C3 witness: a burst of three frames of which two are sanity-filtered
(one too blurry, one too clipped) leaves one survivor, the boundary frame
(5.0, 50.0), and short-circuits. -/
theorem C3_sanity_filter_short_circuit_witness :
    (keepFrame (4, 2) = false ↔ ((4:ℚ) < 5 ∨ (50:ℚ) < 2)) ∧
    (measure none [(4, 2), (5, 50), (100, 60)] 7 ⟨0, []⟩).1 =
      { ok := false, distance_pd_mm := none, near_pd_mm := none, score := 0,
        frames_used := (survivors [(4, 2), (5, 50), (100, 60)]).length,
        diag_blur := (survivors [(4, 2), (5, 50), (100, 60)]).map Prod.fst,
        diag_clip := (survivors [(4, 2), (5, 50), (100, 60)]).map Prod.snd,
        message := "Low-quality burst — retake" } :=
  ⟨(C3_sanity_filter_short_circuit none [(4, 2), (5, 50), (100, 60)] 7 ⟨0, []⟩
      (by with_unfolding_all decide) (by with_unfolding_all decide)).1 4 2,
   (C3_sanity_filter_short_circuit none [(4, 2), (5, 50), (100, 60)] 7 ⟨0, []⟩
      (by with_unfolding_all decide) (by with_unfolding_all decide)).2⟩

/-- C4: on the non-short-circuit path the score is
`round(0.7 * s + 0.3 * c, 3)` where `s` maps the median surviving sharpness
through the piecewise-linear curve (0.0 at ≤ 40.0, 1.0 at ≥ 160.0, linear
between — so 100.0 gives 0.5) and `c` maps the median surviving clip
percentage through the inverted curve (1.0 at ≤ 4.0, 0.0 at ≥ 16.0). -/
theorem C4_scoring_formula (tok : Option String) (frames : List (ℚ × ℚ))
    (now : ℚ) (st : ServerState) (hcd : cooldownHit tok now st = false)
    (h3 : 3 ≤ (survivors frames).length) :
    (measure tok frames now st).1.score =
      pyRound3 (7 / 10 * specBlurCurve (median ((survivors frames).map Prod.fst)) +
                3 / 10 * specClipCurve (median ((survivors frames).map Prod.snd))) ∧
    score_component_blur 100 = 1 / 2 := by
  constructor
  · rw [measure_fst_of_not_cooldown tok frames now st hcd]
    simp [measureBody, List.length_map, not_lt.mpr h3,
      score_component_blur_eq_spec, score_component_clip_eq_spec]
  · rw [score_component_blur_eq_spec]
    unfold specBlurCurve
    norm_num

/-- C4 witness: three surviving frames with metrics (100, 2) give median
sharpness 100 and median clip 2, hence score
`round(0.7 * 0.5 + 0.3 * 1.0, 3) = 0.65`. -/
theorem C4_scoring_formula_witness :
    3 ≤ (survivors [((100:ℚ), (2:ℚ)), (100, 2), (100, 2)]).length ∧
    (measure none [(100, 2), (100, 2), (100, 2)] 0 ⟨0, []⟩).1.score =
      pyRound3 (7 / 10 *
          specBlurCurve (median ((survivors [((100:ℚ), (2:ℚ)), (100, 2), (100, 2)]).map Prod.fst)) +
        3 / 10 *
          specClipCurve (median ((survivors [((100:ℚ), (2:ℚ)), (100, 2), (100, 2)]).map Prod.snd))) :=
  ⟨by with_unfolding_all decide,
   (C4_scoring_formula none [(100, 2), (100, 2), (100, 2)] 0 ⟨0, []⟩
      (by with_unfolding_all decide) (by with_unfolding_all decide)).1⟩

/-- C5: on the non-short-circuit path the message is `"OK"` when the score
is ≥ 0.75 (so exactly 0.75 gives `"OK"`), the borderline message when
0.55 ≤ score < 0.75 (so exactly 0.55 is borderline), and the low-quality
message when score < 0.55. -/
theorem C5_score_banding (tok : Option String) (frames : List (ℚ × ℚ))
    (now : ℚ) (st : ServerState) (hcd : cooldownHit tok now st = false)
    (h3 : 3 ≤ (survivors frames).length) :
    (3 / 4 ≤ (measure tok frames now st).1.score →
      (measure tok frames now st).1.message = "OK") ∧
    (11 / 20 ≤ (measure tok frames now st).1.score →
      (measure tok frames now st).1.score < 3 / 4 →
      (measure tok frames now st).1.message = "Borderline — consider retaking") ∧
    ((measure tok frames now st).1.score < 11 / 20 →
      (measure tok frames now st).1.message = "Low quality — retake") := by
  rw [measure_fst_of_not_cooldown tok frames now st hcd]
  have hlen : ¬ ((survivors frames).map Prod.fst).length < 3 := by
    simpa [List.length_map] using not_lt.mpr h3
  simp only [measureBody, hlen, if_false]
  refine ⟨fun h1 => ?_, fun h1 h2 => ?_, fun h1 => ?_⟩ <;>
    simp only [bandMessage] at h1 ⊢ <;> split_ifs <;>
    first | rfl | linarith

/-- C5 witness: the burst with survivor metrics (100, 2) scores 0.65,
which is at least 0.55 and below 0.75, so the banded message is the
borderline one. -/
theorem C5_score_banding_witness :
    (measure none [((100:ℚ), (2:ℚ)), (100, 2), (100, 2)] 0 ⟨0, []⟩).1.message
      = "Borderline — consider retaking" :=
  (C5_score_banding none [(100, 2), (100, 2), (100, 2)] 0 ⟨0, []⟩
      (by with_unfolding_all decide) (by with_unfolding_all decide)).2.1
    (by with_unfolding_all decide) (by with_unfolding_all decide)

/-- C6: whenever the metrics are computed, the sharpness metric is ≥ 0 and
the clip metric lies in [0, 100]; a histogram whose total is zero is
guarded (total treated as 1), so the clip value is still defined and
equals 0%. -/
theorem C6_metric_ranges :
    (∀ (img : ImgBuf) (r : ℚ), calc_blur_laplacian_var img = some r → 0 ≤ r) ∧
    (∀ (img : ImgBuf) (r : ℚ), calc_hist_clip_pct img = some r → 0 ≤ r ∧ r ≤ 100) ∧
    (∀ g : GrayImg, histTotalRaw g = 0 → clipOfGray g = 0) := by
  refine ⟨?_, ?_, ?_⟩
  · rintro img r h
    rcases img with g | g
    · simp [calc_blur_laplacian_var, cvtColorBGR2GRAY] at h
    · simp only [calc_blur_laplacian_var, cvtColorBGR2GRAY, Option.map_some',
        Option.some.injEq] at h
      rw [← h]
      exact npVar_nonneg _
  · rintro img r h
    rcases img with g | g
    · simp [calc_hist_clip_pct, cvtColorBGR2GRAY] at h
    · simp only [calc_hist_clip_pct, cvtColorBGR2GRAY, Option.map_some',
        Option.some.injEq] at h
      rw [← h]
      exact clipOfGray_range _
  · intro g hzero
    unfold clipOfGray
    rw [if_neg (by omega)]
    rw [hist_eq_zero_of_total_eq_zero g hzero 0 (by decide),
        hist_eq_zero_of_total_eq_zero g hzero 255 (by decide)]
    norm_num

/-- C6 witness: the all-black 1×1 BGR frame has blur variance 0 (≥ 0) and
clip percentage 100 (within [0, 100]); the empty grid has a zero-total
histogram and clip value 0. -/
theorem C6_metric_ranges_witness :
    calc_blur_laplacian_var (ImgBuf.bgr3 [[(0, 0, 0)]]) = some 0 ∧ (0 : ℚ) ≤ 0 ∧
    calc_hist_clip_pct (ImgBuf.bgr3 [[(0, 0, 0)]]) = some 100 ∧
    ((0 : ℚ) ≤ 100 ∧ (100 : ℚ) ≤ 100) ∧
    histTotalRaw ([] : GrayImg) = 0 ∧ clipOfGray ([] : GrayImg) = 0 :=
  ⟨by with_unfolding_all decide,
   C6_metric_ranges.1 (ImgBuf.bgr3 [[(0, 0, 0)]]) 0 (by with_unfolding_all decide),
   by with_unfolding_all decide,
   C6_metric_ranges.2.1 (ImgBuf.bgr3 [[(0, 0, 0)]]) 100 (by with_unfolding_all decide),
   by with_unfolding_all decide,
   C6_metric_ranges.2.2 [] (by with_unfolding_all decide)⟩

/-- C7 counterexample: three calls with token `"t"` at times 10, 12 and 13
(from a fresh state).  The call at 12 is rejected and therefore does not
refresh the token's timestamp, so the calls at 12 and 13 — two calls with
the same non-empty token only 1 second apart — end with the call at 13
passing the cooldown check and returning `ok = true`, contradicting the
claim that the second of any such pair is rejected. -/
theorem C7_cooldown_counterexample :
    (13 : ℚ) - 12 < TOKEN_COOLDOWN_SEC ∧
    (measure (some "t") [] 12 (measure (some "t") [] 10 (ServerState.mk 0 [])).2).1
      = rapidRepeatResponse ∧
    (measure (some "t") [((100 : ℚ), (2 : ℚ)), (100, 2), (100, 2)] 13
        (measure (some "t") [] 12 (measure (some "t") [] 10 (ServerState.mk 0 [])).2).2).1.ok
      = true := by
  refine ⟨?_, ?_, ?_⟩ <;> with_unfolding_all decide

/-- C7 (amended): when the first of the two calls passed the cooldown check
(so the token's timestamp was recorded), a second call with the same token
less than 2.5 seconds later returns the rapid-repeat rejection — ok=false,
score 0, frames_used 0, empty diagnostics — regardless of the frames of
either call; and a call with no token is never rejected for cooldown. -/
theorem C7_cooldown_amended (tok : String) (frames1 frames2 : List (ℚ × ℚ))
    (t1 t2 : ℚ) (st : ServerState)
    (h1 : cooldownHit (some tok) t1 st = false)
    (h2 : t2 - t1 < TOKEN_COOLDOWN_SEC) :
    (measure (some tok) frames2 t2 (measure (some tok) frames1 t1 st).2).1
      = rapidRepeatResponse ∧
    ∀ (frames : List (ℚ × ℚ)) (now : ℚ) (s : ServerState),
      (measure none frames now s).1.message
        ≠ "Too-rapid repeat; please hold still briefly." := by
  constructor
  · simp only [cooldownHit, decide_eq_false_iff_not, not_lt] at h1
    simp only [measure, if_neg (not_lt.mpr h1)]
    rw [List.lookup_cons_self]
    simp only [Option.getD_some, if_pos h2]
  · intro frames now s
    show (measureBody frames).message ≠ _
    simp only [measureBody, bandMessage]
    split_ifs <;> dsimp only <;> decide

/-- C7 (amended) witness: token `"t"` first used at time 10 from a fresh
state, used again at time 12 — the second call is rejected with the
rapid-repeat response. -/
theorem C7_cooldown_amended_witness :
    cooldownHit (some "t") 10 (ServerState.mk 0 []) = false ∧
    (12 : ℚ) - 10 < TOKEN_COOLDOWN_SEC ∧
    (measure (some "t") [] 12 (measure (some "t") [] 10 (ServerState.mk 0 [])).2).1
      = rapidRepeatResponse :=
  ⟨by with_unfolding_all decide, by with_unfolding_all decide,
   (C7_cooldown_amended "t" [] [] 10 12 (ServerState.mk 0 [])
      (by with_unfolding_all decide) (by with_unfolding_all decide)).1⟩

/-- C8 counterexample: on a non-empty single-channel buffer both metric
computations fail (`cv2.cvtColor(..., COLOR_BGR2GRAY)` raises on
1-channel input), contradicting the claim that neither raises. -/
theorem C8_single_channel_counterexample :
    calc_blur_laplacian_var (ImgBuf.gray1 [[0]]) = none ∧
    calc_hist_clip_pct (ImgBuf.gray1 [[0]]) = none :=
  ⟨rfl, rfl⟩

/-- C8 (amended): both metric computations convert to grayscale through the
one shared conversion (`cvtColor BGR2GRAY`, the same luminance formula at
both call sites) and are total over 3-channel buffers; on single-channel
input both raise instead of tolerating it. -/
theorem C8_grayscale_totality :
    (∀ g : List (List BgrPixel), ∃ b : ℚ,
        calc_blur_laplacian_var (ImgBuf.bgr3 g) = some b) ∧
    (∀ g : List (List BgrPixel), ∃ c : ℚ,
        calc_hist_clip_pct (ImgBuf.bgr3 g) = some c) ∧
    (∀ img : ImgBuf,
        calc_blur_laplacian_var img = (cvtColorBGR2GRAY img).map blurOfGray ∧
        calc_hist_clip_pct img = (cvtColorBGR2GRAY img).map clipOfGray) ∧
    (∀ g : GrayImg, calc_blur_laplacian_var (ImgBuf.gray1 g) = none ∧
        calc_hist_clip_pct (ImgBuf.gray1 g) = none) :=
  ⟨fun _ => ⟨_, rfl⟩, fun _ => ⟨_, rfl⟩, fun _ => ⟨rfl, rfl⟩, fun _ => ⟨rfl, rfl⟩⟩

/-- C9 counterexample: the same three valid frames submitted twice with the
same token, 1 second apart, from a fresh state: the first call scores 0.65
while the second is cooldown-rejected and scores 0.0 — the burst result is
not independent of the mutated token map. -/
theorem C9_determinism_counterexample :
    (measure (some "t") [((100 : ℚ), (2 : ℚ)), (100, 2), (100, 2)] 10
        (ServerState.mk 0 [])).1.score = 13 / 20 ∧
    (measure (some "t") [((100 : ℚ), (2 : ℚ)), (100, 2), (100, 2)] 11
        (measure (some "t") [((100 : ℚ), (2 : ℚ)), (100, 2), (100, 2)] 10
          (ServerState.mk 0 [])).2).1.score = 0 := by
  constructor <;> with_unfolding_all decide

/-- C9 (amended): burst scoring is deterministic in the frame inputs for
every pair of calls that pass the cooldown check: whatever the tokens,
call times, usage counters and token maps, the same ordered frames yield
identical score, frames_used, diagnostics and message. -/
theorem C9_determinism_amended (tok1 tok2 : Option String) (frames : List (ℚ × ℚ))
    (t1 t2 : ℚ) (st1 st2 : ServerState)
    (h1 : cooldownHit tok1 t1 st1 = false) (h2 : cooldownHit tok2 t2 st2 = false) :
    (measure tok1 frames t1 st1).1.score = (measure tok2 frames t2 st2).1.score ∧
    (measure tok1 frames t1 st1).1.frames_used = (measure tok2 frames t2 st2).1.frames_used ∧
    (measure tok1 frames t1 st1).1.diag_blur = (measure tok2 frames t2 st2).1.diag_blur ∧
    (measure tok1 frames t1 st1).1.diag_clip = (measure tok2 frames t2 st2).1.diag_clip ∧
    (measure tok1 frames t1 st1).1.message = (measure tok2 frames t2 st2).1.message := by
  rw [measure_fst_of_not_cooldown tok1 frames t1 st1 h1,
      measure_fst_of_not_cooldown tok2 frames t2 st2 h2]
  exact ⟨rfl, rfl, rfl, rfl, rfl⟩

/-- C9 (amended) witness: a tokenless call on a fresh state and a call with
token `"t"` on a mutated state (counter 7, token map holding `"u"`) agree
on score and message for the same three frames. -/
theorem C9_determinism_amended_witness :
    cooldownHit none 0 (ServerState.mk 0 []) = false ∧
    cooldownHit (some "t") 100 (ServerState.mk 7 [("u", 1)]) = false ∧
    (measure none [((100 : ℚ), (2 : ℚ)), (100, 2), (100, 2)] 0
        (ServerState.mk 0 [])).1.score =
      (measure (some "t") [((100 : ℚ), (2 : ℚ)), (100, 2), (100, 2)] 100
        (ServerState.mk 7 [("u", 1)])).1.score :=
  ⟨by with_unfolding_all decide, by with_unfolding_all decide,
   (C9_determinism_amended none (some "t") [(100, 2), (100, 2), (100, 2)] 0 100
      (ServerState.mk 0 []) (ServerState.mk 7 [("u", 1)])
      (by with_unfolding_all decide) (by with_unfolding_all decide)).1⟩

/-- C10: on every return path of `measure` the two diagnostics lists have
length equal to `frames_used`; on the scoring paths they are exactly the
survivors' raw per-frame sharpness and clip values in submission order,
and on the cooldown-rejection path `frames_used` is 0 and both lists are
empty. -/
theorem C10_diagnostics_invariant (tok : Option String) (frames : List (ℚ × ℚ))
    (now : ℚ) (st : ServerState) :
    (measure tok frames now st).1.diag_blur.length
        = (measure tok frames now st).1.frames_used ∧
    (measure tok frames now st).1.diag_clip.length
        = (measure tok frames now st).1.frames_used ∧
    (cooldownHit tok now st = false →
      (measure tok frames now st).1.diag_blur = (survivors frames).map Prod.fst ∧
      (measure tok frames now st).1.diag_clip = (survivors frames).map Prod.snd) ∧
    (cooldownHit tok now st = true →
      (measure tok frames now st).1.frames_used = 0 ∧
      (measure tok frames now st).1.diag_blur = [] ∧
      (measure tok frames now st).1.diag_clip = []) := by
  cases hcd : cooldownHit tok now st
  · rw [measure_fst_of_not_cooldown tok frames now st hcd]
    obtain ⟨hb, hc, hn⟩ := measureBody_fields frames
    refine ⟨?_, ?_, fun _ => ⟨hb, hc⟩, fun htrue => by simp at htrue⟩
    · rw [hb, hn, List.length_map]
    · rw [hc, hn, List.length_map]
  · rw [measure_fst_of_cooldown tok frames now st hcd]
    exact ⟨rfl, rfl, fun hfalse => by simp at hfalse, fun _ => ⟨rfl, rfl, rfl⟩⟩

/-- C10 witness: a tokenless call over a mixed burst (one dropped frame,
two survivors) has diagnostics of length 2 equal to the survivors' values
in order. -/
theorem C10_diagnostics_invariant_witness :
    (measure none [((100 : ℚ), (2 : ℚ)), (1, 2), (150, 3)] 0
        (ServerState.mk 0 [])).1.diag_blur.length =
      (measure none [((100 : ℚ), (2 : ℚ)), (1, 2), (150, 3)] 0
        (ServerState.mk 0 [])).1.frames_used ∧
    (measure none [((100 : ℚ), (2 : ℚ)), (1, 2), (150, 3)] 0
        (ServerState.mk 0 [])).1.diag_blur
      = (survivors [((100 : ℚ), (2 : ℚ)), (1, 2), (150, 3)]).map Prod.fst :=
  ⟨(C10_diagnostics_invariant none [(100, 2), (1, 2), (150, 3)] 0
      (ServerState.mk 0 [])).1,
   ((C10_diagnostics_invariant none [(100, 2), (1, 2), (150, 3)] 0
      (ServerState.mk 0 [])).2.2.1 (by with_unfolding_all decide)).1⟩

end PD
